import Mathlib

/-!
Shallow embedding of the prompt-resolution core of the dad-joke MCP server
(`src/server.py`): the style catalog `JOKE_STYLES`, the `list_prompts`
handler, and the `get_prompt` handler (operation `resolve` / `invoke` in the
specification's vocabulary).

Python `dict[str, str]` values are embedded as association lists of
`String × String` pairs (first match wins, insertion order preserved, as for
a Python dict built from a literal).  Python `str.format(topic=...)` is
embedded as the fallible `formatTopic`: it succeeds exactly when every brace
in the template belongs to a literal `{topic}` replacement field (the only
shape of template the catalog contains; a stray brace or another field name
would make the Python call raise) and then replaces every field with the
topic.  Exceptions raised by the handler are embedded as `Except` errors.
-/

namespace DadJoke

/-- One entry of the `content` field of an MCP `PromptMessage`
(`mcp.types.TextContent`). -/
structure TextContent where
  type : String
  text : String
deriving Repr, DecidableEq

/-- `mcp.types.PromptMessage`: a role together with text content. -/
structure PromptMessage where
  role : String
  content : TextContent
deriving Repr, DecidableEq

/-- `mcp.types.GetPromptResult`: the successful response of `get_prompt`. -/
structure GetPromptResult where
  description : String
  messages : List PromptMessage
deriving Repr, DecidableEq

/-- `mcp.types.PromptArgument`: one declared argument of a prompt. -/
structure PromptArgument where
  name : String
  description : String
  required : Bool
deriving Repr, DecidableEq

/-- `mcp.types.Prompt`: a capability descriptor advertised by `list_prompts`. -/
structure Prompt where
  name : String
  description : String
  arguments : List PromptArgument
deriving Repr, DecidableEq

/-- The errors `get_prompt` can raise.  The source raises `ValueError` with a
message for the two hard failures; `keyError` and `formatError` embed the
exceptions Python `JOKE_STYLES[style]` and `str.format` would raise (shown
below to be unreachable). -/
inductive PromptError where
  | unknownPrompt (msg : String)
  | missingArgument (msg : String)
  | keyError
  | formatError
deriving Repr, DecidableEq

/-- The style catalog `JOKE_STYLES`, in declaration order. -/
def JOKE_STYLES : List (String × String) := [
  ("pun", "You are an expert comedian specializing in puns and wordplay. Create a clever pun-based dad joke about {topic} that plays on multiple meanings of words. The joke should be groan-worthy but clever, appropriate for all ages."),
  ("wordplay", "You are a master of linguistic humor and wordplay. Create a dad joke about {topic} that uses creative word combinations, homophones, or unexpected word associations. Keep it family-friendly and punny."),
  ("observational", "You are a comedian skilled in observational humor. Create a dad joke about {topic} that points out something funny or absurd about everyday situations. Make it relatable and wholesome."),
  ("anti-humor", "You are a comedian who specializes in anti-humor and anti-jokes. Create a dad joke about {topic} that subverts expectations with an unexpectedly literal or mundane punchline. The humor comes from the lack of a traditional punchline."),
  ("question-answer", "You are an expert at question-and-answer style dad jokes. Create a dad joke about {topic} in the classic \x27Why did the X...? Because...\x27 or \x27What do you call...?\x27 format. Make it punny and groan-inducing."),
  ("one-liner", "You are a master of concise one-liner jokes. Create a short, punchy dad joke about {topic} that delivers the humor in a single sentence. Focus on wordplay or unexpected twists."),
  ("knock-knock", "You are skilled at creating knock-knock jokes. Create a knock-knock joke about {topic} that uses clever wordplay. Follow the classic format: \x27Knock knock. Who\x27s there? [X]. [X] who? [Punchline].\x27"),
  ("classic", "You are an expert comedian skilled with puns and dad jokes. Create a joke about {topic} that is appropriate for a workplace. Use classic dad joke style with groan-worthy puns and wholesome humor.")]

/-- `listStyles` of the specification, section 4.1: all identifiers in
declaration order (`JOKE_STYLES.keys()`). -/
def listStyles : List String := JOKE_STYLES.map Prod.fst

/-- Association-list lookup: Python `d.get(k)` / `d[k]` / `k in d` on a dict. -/
def argLookup : List (String × String) → String → Option String
  | [], _ => none
  | (k, v) :: rest, key => if k == key then some v else argLookup rest key

/-- `style in JOKE_STYLES` / `JOKE_STYLES[style]`. -/
def lookupStyle (s : String) : Option String := argLookup JOKE_STYLES s

/-- Split a character list at every occurrence of the literal replacement
field `{topic}` (the field name is the plain word topic). -/
def splitSlotAux : List Char → List Char → List (List Char)
  | acc, [] => [acc.reverse]
  | acc, '\x7b' :: 't' :: 'o' :: 'p' :: 'i' :: 'c' :: '\x7d' :: rest =>
      acc.reverse :: splitSlotAux [] rest
  | acc, c :: rest => splitSlotAux (c :: acc) rest

/-- The literal pieces of a template around its `{topic}` fields. -/
def pieces (tpl : String) : List String := (splitSlotAux [] tpl.data).map String.mk

/-- Interleave a separator between the elements of a list (Python
`sep.join(xs)`; also the result of replacing every field of a template whose
pieces are `xs` with `sep`). -/
def joinWith (sep : String) : List String → String
  | [] => ""
  | [x] => x
  | x :: y :: rest => x ++ sep ++ joinWith sep (y :: rest)

/-- A template is well formed for Python `format` with the single keyword
`topic` exactly when every `\x7b` and every `\x7d` in it belongs to a literal
`{topic}` field: then the brace counts both equal the number of fields. -/
def wellFormedTpl (tpl : String) : Bool :=
  (tpl.data.count '\x7b' == (pieces tpl).length - 1) &&
    (tpl.data.count '\x7d' == (pieces tpl).length - 1)

/-- Embedding of `tpl.format(topic=topic)`: `none` when the Python call would
raise (a brace not forming a `{topic}` field), otherwise every field replaced
by the topic.  The inserted topic is taken verbatim; `format` does not rescan
it. -/
def formatTopic (tpl topic : String) : Option String :=
  if wellFormedTpl tpl then some (joinWith topic (pieces tpl)) else none

/-- Python `str.lower()`: lower-case every character.  (The library
`String.toLower` is extensionally the same map but is defined through
well-founded recursion, which the kernel cannot evaluate; this structural
form can be computed inside proofs.) -/
def strLower (s : String) : String := String.mk (s.data.map Char.toLower)

/-- The string `p` is a prefix of `s` (the claim phrase: the text begins
with `p`). -/
def strStartsWith (s p : String) : Bool := p.data.isPrefixOf s.data

/-- `p` occurs somewhere in the character list. -/
def containsAux (p : List Char) : List Char → Bool
  | [] => p.isEmpty
  | c :: rest => p.isPrefixOf (c :: rest) || containsAux p (rest)

/-- The string `p` occurs as a contiguous substring of `s` (the claim
phrase: the text contains `p`). -/
def strContains (s p : String) : Bool := containsAux p.data s.data

/-- `arguments.get("style", "classic").lower()`. -/
def requestedStyle (args : List (String × String)) : String :=
  strLower ((argLookup args "style").getD "classic")

/-- The style actually used: the requested style when it is in the catalog,
otherwise the fallback `classic` (the `if style not in JOKE_STYLES` block). -/
def resolvedStyle (args : List (String × String)) : String :=
  if (lookupStyle (requestedStyle args)).isNone then "classic" else requestedStyle args

/-- The template of a style known to be in the catalog (`JOKE_STYLES[style]`). -/
def styleTemplate (s : String) : String := (lookupStyle s).getD ""

/-- The `get_prompt` handler (`resolve` of the specification), logging
stripped; `get_prompt_logged` below refines it with the log trace.
The branch `not arguments or "topic" not in arguments` of the source is the
two `none` branches here: a missing map, and a map in which `"topic"` has no
entry (an empty map has none). -/
def get_prompt (name : String) (arguments : Option (List (String × String))) :
    Except PromptError GetPromptResult :=
  if name ≠ "dad_joke" then
    .error (.unknownPrompt ("Unknown prompt: " ++ name))
  else
    match arguments with
    | none => .error (.missingArgument "Missing required argument: topic")
    | some args =>
      match argLookup args "topic" with
      | none => .error (.missingArgument "Missing required argument: topic")
      | some topic =>
        let style := resolvedStyle args
        match lookupStyle style with
        | none => .error .keyError
        | some tpl =>
          match formatTopic tpl topic with
          | none => .error .formatError
          | some text =>
            .ok { description := "Dad joke prompt about " ++ topic ++ " in " ++ style ++ " style",
                  messages := [{ role := "user", content := { type := "text", text := text } }] }

/-- The `list_prompts` handler: the single capability descriptor. -/
def list_prompts : List Prompt :=
  [{ name := "dad_joke",
     description := "Generate a dad joke prompt about any topic. Supports multiple joke styles.",
     arguments := [
       { name := "topic",
         description := "The topic or subject for the dad joke",
         required := true },
       { name := "style",
         description := "The style of dad joke. Options: " ++ joinWith ", " (JOKE_STYLES.map Prod.fst) ++ ". Default: classic",
         required := false }] }]

/-- One structured log record: the fields of a logger call that vary per
request (level, message, the per-call `request_id` from `uuid.uuid4()`, and
the `datetime.utcnow()` timestamp). -/
structure LogRecord where
  level : String
  message : String
  requestId : String
  timestamp : String
deriving Repr, DecidableEq

/-- `log_request`: emits one info record when `settings.log_requests` is set. -/
def log_request (logRequests : Bool) (requestId now : String) : List LogRecord :=
  if logRequests then [⟨"info", "Incoming MCP request", requestId, now⟩] else []

/-- `log_response`: emits one info record when `settings.log_responses` is set. -/
def log_response (logResponses : Bool) (requestId now : String) : List LogRecord :=
  if logResponses then [⟨"info", "Outgoing MCP response", requestId, now⟩] else []

/-- The full `get_prompt` handler with its log trace: `requestId` embeds the
fresh `uuid.uuid4()` of the call and `now` the `datetime.utcnow()` readings;
they flow only into the trace.  The first component is the returned value or
raised error. -/
def get_prompt_logged (logRequests logResponses : Bool) (requestId now : String)
    (name : String) (arguments : Option (List (String × String))) :
    Except PromptError GetPromptResult × List LogRecord :=
  let reqLogs := log_request logRequests requestId now
  if name ≠ "dad_joke" then
    (.error (.unknownPrompt ("Unknown prompt: " ++ name)),
      reqLogs ++ [⟨"error", "Unknown prompt: " ++ name, requestId, now⟩])
  else
    match arguments with
    | none =>
      (.error (.missingArgument "Missing required argument: topic"),
        reqLogs ++ [⟨"error", "Missing required argument: topic", requestId, now⟩])
    | some args =>
      match argLookup args "topic" with
      | none =>
        (.error (.missingArgument "Missing required argument: topic"),
          reqLogs ++ [⟨"error", "Missing required argument: topic", requestId, now⟩])
      | some topic =>
        let s := requestedStyle args
        let warnLogs :=
          if (lookupStyle s).isNone then
            [⟨"warning", "Unknown joke style \x27" ++ s ++ "\x27, falling back to \x27classic\x27", requestId, now⟩]
          else []
        let style := resolvedStyle args
        match lookupStyle style with
        | none => (.error .keyError, reqLogs ++ warnLogs)
        | some tpl =>
          match formatTopic tpl topic with
          | none => (.error .formatError, reqLogs ++ warnLogs)
          | some text =>
            (.ok { description := "Dad joke prompt about " ++ topic ++ " in " ++ style ++ " style",
                   messages := [{ role := "user", content := { type := "text", text := text } }] },
              reqLogs ++ warnLogs ++ log_response logResponses requestId now
                ++ [⟨"info", "Generated dad joke prompt", requestId, now⟩])

/-- The full `list_prompts` handler with its log trace. -/
def list_prompts_logged (logRequests logResponses : Bool) (requestId now : String) :
    List Prompt × List LogRecord :=
  (list_prompts,
    log_request logRequests requestId now ++ log_response logResponses requestId now
      ++ [⟨"info", "Listed available prompts", requestId, now⟩])

/-- `k in d` / `d.get(k)` lifted to the optional arguments map. -/
def optArgLookup (arguments : Option (List (String × String))) (k : String) : Option String :=
  match arguments with
  | none => none
  | some args => argLookup args k

/-- `true` exactly on a successful (non-raising) result. -/
def isOkResult (e : Except PromptError GetPromptResult) : Bool :=
  match e with
  | .ok _ => true
  | .error _ => false

/-- The text of the first message of a successful result. -/
def firstMessageText (e : Except PromptError GetPromptResult) : Option String :=
  match e with
  | .ok r => r.messages.head?.map fun m => m.content.text
  | .error _ => none

theorem get_prompt_logged_fst (logRequests logResponses : Bool) (requestId now : String)
    (name : String) (arguments : Option (List (String × String))) :
    (get_prompt_logged logRequests logResponses requestId now name arguments).1 =
      get_prompt name arguments := by
  unfold get_prompt_logged get_prompt
  by_cases h : name = "dad_joke"
  · simp only [h]
    cases arguments with
    | none => simp
    | some args =>
      simp only [ne_eq, not_true_eq_false, if_false]
      cases hT : argLookup args "topic" with
      | none => rfl
      | some topic =>
        cases hS : lookupStyle (resolvedStyle args) with
        | none => rfl
        | some tpl =>
          cases hF : formatTopic tpl topic with
          | none => simp [hF]
          | some text => simp [hF]
  · simp [h]

theorem joinWith_pair (sep a b : String) : joinWith sep [a, b] = a ++ sep ++ b := rfl

theorem argLookup_mem {l : List (String × String)} {k v : String}
    (h : argLookup l k = some v) : (k, v) ∈ l := by
  induction l with
  | nil => simp [argLookup] at h
  | cons p rest ih =>
    obtain ⟨pk, pv⟩ := p
    by_cases hk : pk == k
    · simp only [argLookup, hk, if_true, Option.some.injEq] at h
      subst h
      have : pk = k := by simpa using hk
      subst this
      exact List.mem_cons_self _ _
    · simp only [argLookup, hk, if_false] at h
      exact List.mem_cons_of_mem _ (ih h)

theorem allWellFormed : ∀ p ∈ JOKE_STYLES, wellFormedTpl p.2 = true := by decide

theorem lookupStyle_classic : lookupStyle "classic" = some (styleTemplate "classic") := rfl

/-- The resolved style is always in the catalog, its template is
`styleTemplate` of it, and that template is well formed for `format`. -/
theorem resolvedStyle_lookup (args : List (String × String)) :
    lookupStyle (resolvedStyle args) = some (styleTemplate (resolvedStyle args)) ∧
      wellFormedTpl (styleTemplate (resolvedStyle args)) = true := by
  unfold resolvedStyle
  cases h : lookupStyle (requestedStyle args) with
  | none =>
    simp only [h, Option.isNone_none, if_true]
    exact ⟨lookupStyle_classic, by decide⟩
  | some tpl =>
    simp only [h, Option.isNone_some, Bool.false_eq_true, if_false]
    refine ⟨by simp [styleTemplate, h], ?_⟩
    have hmem : (requestedStyle args, tpl) ∈ JOKE_STYLES := argLookup_mem h
    have := allWellFormed _ hmem
    simpa [styleTemplate, h] using this

/-- `formatTopic` always succeeds on a well formed template, with every field
replaced by the topic. -/
theorem formatTopic_eq {tpl : String} (h : wellFormedTpl tpl = true) (topic : String) :
    formatTopic tpl topic = some (joinWith topic (pieces tpl)) := by
  simp [formatTopic, h]

/-- Whenever the operation name is the supported one and the `topic` key is
present, `get_prompt` succeeds, with the fully substituted template of the
resolved style as its single message and a description naming topic and
resolved style. -/
theorem resolve_success (args : List (String × String)) (T : String)
    (hT : argLookup args "topic" = some T) :
    get_prompt "dad_joke" (some args) =
      .ok { description := "Dad joke prompt about " ++ T ++ " in " ++ resolvedStyle args ++ " style",
            messages := [{ role := "user",
                           content := { type := "text",
                                        text := joinWith T (pieces (styleTemplate (resolvedStyle args))) } }] } := by
  obtain ⟨hlook, hwf⟩ := resolvedStyle_lookup args
  unfold get_prompt
  simp only [ne_eq, not_true_eq_false, if_false, hT, hlook, formatTopic_eq hwf]

/-- C1, counterexample: the claim says `resolve(op, "", anyStyle)` fails with
`MissingArgument`, but a call with the `topic` key bound to the empty string
succeeds: the source only checks key presence (`"topic" not in arguments`),
never emptiness. -/
theorem C1_counterexample :
    isOkResult (get_prompt "dad_joke" (some [("topic", ""), ("style", "pun")])) = true := by
  rw [resolve_success [("topic", ""), ("style", "pun")] "" rfl]
  rfl

/-- C1, amended: `resolve` with the supported operation name fails with
`MissingArgument` exactly when the `topic` key is absent from the arguments
map (or the map itself is absent); a present-but-empty topic is accepted and
the call succeeds. -/
theorem C1_missing_topic :
    (∀ (arguments : Option (List (String × String))),
        optArgLookup arguments "topic" = none →
        get_prompt "dad_joke" arguments =
          .error (.missingArgument "Missing required argument: topic")) ∧
    (∀ s : String,
        isOkResult (get_prompt "dad_joke" (some [("topic", ""), ("style", s)])) = true) := by
  constructor
  · intro arguments h
    cases arguments with
    | none => rfl
    | some args =>
      have h' : argLookup args "topic" = none := h
      unfold get_prompt
      simp [h']
  · intro s
    rw [resolve_success [("topic", ""), ("style", s)] "" rfl]
    rfl

/-- C1, witness: the absent-topic call fails with `MissingArgument` and the
empty-topic call succeeds. -/
theorem C1_missing_topic_witness :
    get_prompt "dad_joke" (some [("style", "pun")]) =
      .error (.missingArgument "Missing required argument: topic") ∧
    isOkResult (get_prompt "dad_joke" (some [("topic", ""), ("style", "pun")])) = true :=
  ⟨C1_missing_topic.1 (some [("style", "pun")]) rfl, C1_missing_topic.2 "pun"⟩

/-- C2: for every non-empty topic and every style whose lower-casing is not a
catalog key (empty string and arbitrary unknown words included), `resolve`
does not fail: it resolves exactly as an explicit `"classic"` request does,
the resolved style is the fallback `"classic"`, and the call succeeds; a call
with no style entry at all (null style) also succeeds. -/
theorem C2_unknown_style_falls_back :
    ∀ (T s : String), T ≠ "" → lookupStyle (strLower s) = none →
      get_prompt "dad_joke" (some [("topic", T), ("style", s)]) =
        get_prompt "dad_joke" (some [("topic", T), ("style", "classic")]) ∧
      resolvedStyle [("topic", T), ("style", s)] = "classic" ∧
      isOkResult (get_prompt "dad_joke" (some [("topic", T), ("style", s)])) = true ∧
      isOkResult (get_prompt "dad_joke" (some [("topic", T)])) = true := by
  intro T s _hT hs
  have hres : resolvedStyle [("topic", T), ("style", s)] = "classic" := by
    have hreq : requestedStyle [("topic", T), ("style", s)] = strLower s := rfl
    unfold resolvedStyle
    rw [hreq, hs]
    rfl
  have hresC : resolvedStyle [("topic", T), ("style", "classic")] = "classic" := rfl
  refine ⟨?_, hres, ?_, ?_⟩
  · rw [resolve_success [("topic", T), ("style", s)] T rfl,
      resolve_success [("topic", T), ("style", "classic")] T rfl, hres, hresC]
  · rw [resolve_success [("topic", T), ("style", s)] T rfl]
    rfl
  · rw [resolve_success [("topic", T)] T rfl]
    rfl

/-- C2, witness: topic `"mathematics"` with the unknown style `"xyz-unknown"`
resolves exactly as style `"classic"` and succeeds, as does the style-less
call. -/
theorem C2_unknown_style_falls_back_witness :
    get_prompt "dad_joke" (some [("topic", "mathematics"), ("style", "xyz-unknown")]) =
      get_prompt "dad_joke" (some [("topic", "mathematics"), ("style", "classic")]) ∧
    resolvedStyle [("topic", "mathematics"), ("style", "xyz-unknown")] = "classic" ∧
    isOkResult (get_prompt "dad_joke" (some [("topic", "mathematics"), ("style", "xyz-unknown")])) = true ∧
    isOkResult (get_prompt "dad_joke" (some [("topic", "mathematics")])) = true :=
  C2_unknown_style_falls_back "mathematics" "xyz-unknown" (by decide) rfl

/-- C3, counterexample: the claim says the message text begins with the
literal phrase `Knock knock.`, but the knock-knock template begins with
`You are skilled at creating knock-knock jokes.`; the phrase only occurs
later in the text. -/
theorem C3_counterexample :
    (firstMessageText (get_prompt "dad_joke"
        (some [("topic", "chickens"), ("style", "knock-knock")]))).map
      (fun t => strStartsWith t "Knock knock.") = some false := by
  rw [resolve_success [("topic", "chickens"), ("style", "knock-knock")] "chickens" rfl]
  decide

/-- C3, amended: `resolve` with topic `"chickens"` and style `"knock-knock"`
returns a message text that contains the literal phrase `Knock knock.` and
contains `"chickens"`; it begins with
`You are skilled at creating knock-knock jokes.`, not with `Knock knock.`. -/
theorem C3_knock_knock :
    firstMessageText (get_prompt "dad_joke"
        (some [("topic", "chickens"), ("style", "knock-knock")])) =
      some ("You are skilled at creating knock-knock jokes. Create a knock-knock joke about "
        ++ "chickens"
        ++ " that uses clever wordplay. Follow the classic format: \x27Knock knock. Who\x27s there? [X]. [X] who? [Punchline].\x27") ∧
    (firstMessageText (get_prompt "dad_joke"
        (some [("topic", "chickens"), ("style", "knock-knock")]))).map
      (fun t => strContains t "Knock knock." && strContains t "chickens"
        && strStartsWith t "You are skilled at creating knock-knock jokes.") = some true := by
  rw [resolve_success [("topic", "chickens"), ("style", "knock-knock")] "chickens" rfl]
  constructor
  · rfl
  · decide

/-- C5: style matching is case-insensitive: whenever two style strings have
the same lower-casing (in particular `"PUN"` and `"pun"`), the two calls
produce identical responses. -/
theorem C5_case_insensitive :
    ∀ (T s₁ s₂ : String), strLower s₁ = strLower s₂ →
      get_prompt "dad_joke" (some [("topic", T), ("style", s₁)]) =
        get_prompt "dad_joke" (some [("topic", T), ("style", s₂)]) := by
  intro T s₁ s₂ h
  rw [resolve_success [("topic", T), ("style", s₁)] T rfl,
    resolve_success [("topic", T), ("style", s₂)] T rfl]
  have hres : resolvedStyle [("topic", T), ("style", s₁)] =
      resolvedStyle [("topic", T), ("style", s₂)] := by
    have r₁ : requestedStyle [("topic", T), ("style", s₁)] = strLower s₁ := rfl
    have r₂ : requestedStyle [("topic", T), ("style", s₂)] = strLower s₂ := rfl
    unfold resolvedStyle
    rw [r₁, r₂, h]
  rw [hres]

/-- C5, witness: `"PUN"` and `"pun"` produce identical responses on topic
`"cats"`. -/
theorem C5_case_insensitive_witness :
    get_prompt "dad_joke" (some [("topic", "cats"), ("style", "PUN")]) =
      get_prompt "dad_joke" (some [("topic", "cats"), ("style", "pun")]) :=
  C5_case_insensitive "cats" "PUN" "pun" rfl

/-- C6: any operation name other than the single supported `"dad_joke"` fails
with the unknown-operation error, whatever the arguments map holds. -/
theorem C6_unknown_operation :
    ∀ (name : String) (arguments : Option (List (String × String))),
      name ≠ "dad_joke" →
      get_prompt name arguments = .error (.unknownPrompt ("Unknown prompt: " ++ name)) := by
  intro name arguments h
  unfold get_prompt
  simp [h]

/-- C6, witness: `"not_a_real_op"` fails with the unknown-operation error
even with valid topic and style arguments. -/
theorem C6_unknown_operation_witness :
    get_prompt "not_a_real_op" (some [("topic", "cats"), ("style", "pun")]) =
      .error (.unknownPrompt ("Unknown prompt: " ++ "not_a_real_op")) :=
  C6_unknown_operation "not_a_real_op" (some [("topic", "cats"), ("style", "pun")]) (by decide)

theorem append_ne_empty (a b : String) (h : a ≠ "") : a ++ b ≠ "" := by
  intro hc
  apply h
  have hd := congrArg String.data hc
  rw [String.data_append] at hd
  have : a.data = [] := (List.append_eq_nil.mp hd).1
  cases a
  simp_all

theorem joinWith_two (T : String) (l : List String) (h : l.length = 2) :
    joinWith T l = l.headD "" ++ T ++ (l.drop 1).headD "" := by
  cases l with
  | nil => simp at h
  | cons a l =>
    cases l with
    | nil => simp at h
    | cons b l =>
      cases l with
      | nil => rfl
      | cons c l => simp at h

theorem style_mem_facts : ∀ S ∈ listStyles, strLower S = S ∧ (lookupStyle S).isSome = true := by
  decide

theorem pieces_two : ∀ S ∈ listStyles,
    (pieces (styleTemplate S)).length = 2 ∧ (pieces (styleTemplate S)).headD "" ≠ "" := by
  decide

/-- For a style already in the catalog, the resolved style is that style
itself (lower-casing and catalog lookup both leave it unchanged). -/
theorem resolvedStyle_catalog (S : String) (hS : S ∈ listStyles) (T : String) :
    resolvedStyle [("topic", T), ("style", S)] = S := by
  obtain ⟨h1, h2⟩ := style_mem_facts S hS
  have hreq : requestedStyle [("topic", T), ("style", S)] = strLower S := rfl
  unfold resolvedStyle
  rw [hreq, h1]
  cases hl : lookupStyle S with
  | none => rw [hl] at h2; simp at h2
  | some tpl => simp

/-- `get_prompt` with the supported name and a topic-less map fails with the
missing-argument error. -/
theorem resolve_missing {args : List (String × String)}
    (h : argLookup args "topic" = none) :
    get_prompt "dad_joke" (some args) =
      .error (.missingArgument "Missing required argument: topic") := by
  unfold get_prompt
  simp [h]

/-- C4: for every non-empty topic `T` and every style identifier `S` in the
catalog, `resolve` succeeds; the message text is the fully substituted
template (substitution is applied across the whole template, never
partially), it contains `T` verbatim between the template pieces, and it is
non-empty. -/
theorem C4_catalog_style_success :
    ∀ (T S : String), T ≠ "" → S ∈ listStyles →
      get_prompt "dad_joke" (some [("topic", T), ("style", S)]) =
        .ok { description := "Dad joke prompt about " ++ T ++ " in " ++ S ++ " style",
              messages := [{ role := "user",
                             content := { type := "text",
                                          text := joinWith T (pieces (styleTemplate S)) } }] } ∧
      joinWith T (pieces (styleTemplate S)) =
        (pieces (styleTemplate S)).headD "" ++ T ++ ((pieces (styleTemplate S)).drop 1).headD "" ∧
      (pieces (styleTemplate S)).headD "" ≠ "" ∧
      joinWith T (pieces (styleTemplate S)) ≠ "" := by
  intro T S _hT hS
  obtain ⟨hlen, hhd⟩ := pieces_two S hS
  have e := resolve_success [("topic", T), ("style", S)] T rfl
  rw [resolvedStyle_catalog S hS T] at e
  refine ⟨e, joinWith_two T _ hlen, hhd, ?_⟩
  rw [joinWith_two T _ hlen]
  exact append_ne_empty _ _ (append_ne_empty _ _ hhd)

/-- C4, witness: topic `"cats"` with catalog style `"pun"`. -/
theorem C4_catalog_style_success_witness :
    get_prompt "dad_joke" (some [("topic", "cats"), ("style", "pun")]) =
      .ok { description := "Dad joke prompt about " ++ "cats" ++ " in " ++ "pun" ++ " style",
            messages := [{ role := "user",
                           content := { type := "text",
                                        text := joinWith "cats" (pieces (styleTemplate "pun")) } }] } ∧
    joinWith "cats" (pieces (styleTemplate "pun")) =
      (pieces (styleTemplate "pun")).headD "" ++ "cats" ++ ((pieces (styleTemplate "pun")).drop 1).headD "" ∧
    (pieces (styleTemplate "pun")).headD "" ≠ "" ∧
    joinWith "cats" (pieces (styleTemplate "pun")) ≠ "" :=
  C4_catalog_style_success "cats" "pun" (by decide) (by decide)

/-- C7: the catalog holds exactly the eight identifiers in declaration
order, the fallback `"classic"` is among them, every template body splits
into exactly two pieces around its single `{topic}` slot, and substitution
never fails on it for any non-empty topic. -/
theorem C7_catalog_invariants :
    listStyles = ["pun", "wordplay", "observational", "anti-humor", "question-answer",
      "one-liner", "knock-knock", "classic"] ∧
    "classic" ∈ listStyles ∧
    (∀ p ∈ JOKE_STYLES, (pieces p.2).length = 2) ∧
    (∀ p ∈ JOKE_STYLES, ∀ T : String, T ≠ "" → (formatTopic p.2 T).isSome = true) := by
  refine ⟨by decide, by decide, by decide, ?_⟩
  intro p hp T _hT
  rw [formatTopic_eq (allWellFormed p hp)]
  rfl

set_option maxRecDepth 10000 in
/-- C7, witness: the first catalog entry has a two-piece template and
substitution of `"cats"` into it succeeds. -/
theorem C7_catalog_invariants_witness :
    (pieces (JOKE_STYLES.getD 0 ("", "")).2).length = 2 ∧
    (formatTopic (JOKE_STYLES.getD 0 ("", "")).2 "cats").isSome = true :=
  ⟨C7_catalog_invariants.2.2.1 (JOKE_STYLES.getD 0 ("", "")) (by decide),
   C7_catalog_invariants.2.2.2 (JOKE_STYLES.getD 0 ("", "")) (by decide) "cats" (by decide)⟩

/-- C8: both handlers are deterministic.  `list_prompts` returns the same
descriptors whatever the per-call request id, timestamp and logging settings
are, the enumerated style list in the style argument's description is
exactly the catalog's `listStyles` output in declaration order, and two
`get_prompt` calls with identical name and arguments return the identical
value whatever their request ids and timestamps (nothing from the clock or
the uuid source reaches the response). -/
theorem C8_deterministic :
    (∀ (lr₁ ls₁ : Bool) (r₁ t₁ : String) (lr₂ ls₂ : Bool) (r₂ t₂ : String),
      (list_prompts_logged lr₁ ls₁ r₁ t₁).1 = (list_prompts_logged lr₂ ls₂ r₂ t₂).1) ∧
    (∀ (lr ls : Bool) (r t : String),
      ((list_prompts_logged lr ls r t).1.map fun p =>
          p.arguments.map fun a => (a.name, a.description)) =
        [[("topic", "The topic or subject for the dad joke"),
          ("style", "The style of dad joke. Options: " ++ joinWith ", " listStyles
            ++ ". Default: classic")]]) ∧
    (∀ (lr₁ ls₁ : Bool) (r₁ t₁ : String) (lr₂ ls₂ : Bool) (r₂ t₂ : String)
        (name : String) (arguments : Option (List (String × String))),
      (get_prompt_logged lr₁ ls₁ r₁ t₁ name arguments).1 =
        (get_prompt_logged lr₂ ls₂ r₂ t₂ name arguments).1) := by
  refine ⟨fun _ _ _ _ _ _ _ _ => rfl, fun _ _ _ _ => rfl, ?_⟩
  intro lr₁ ls₁ r₁ t₁ lr₂ ls₂ r₂ t₂ name arguments
  rw [get_prompt_logged_fst, get_prompt_logged_fst]

/-- C9: every successful `resolve` response has exactly one message, with
role `"user"`, whose text is the resolved style's template with the topic
substituted into its slots, and a description that embeds both the topic and
the resolved (post-fallback) style identifier. -/
theorem C9_response_shape :
    ∀ (name : String) (arguments : Option (List (String × String))) (r : GetPromptResult),
      get_prompt name arguments = .ok r →
      ∃ (args : List (String × String)) (T : String),
        arguments = some args ∧
        argLookup args "topic" = some T ∧
        r.messages.length = 1 ∧
        r.messages = [{ role := "user",
                        content := { type := "text",
                                     text := joinWith T (pieces (styleTemplate (resolvedStyle args))) } }] ∧
        r.description = "Dad joke prompt about " ++ T ++ " in " ++ resolvedStyle args ++ " style" ∧
        (∃ u v, r.description = u ++ (T ++ v)) ∧
        (∃ u v, r.description = u ++ resolvedStyle args ++ v) := by
  intro name arguments r h
  by_cases hn : name = "dad_joke"
  · subst hn
    cases arguments with
    | none => simp [get_prompt] at h
    | some args =>
      cases ht : argLookup args "topic" with
      | none => rw [resolve_missing ht] at h; simp at h
      | some T =>
        rw [resolve_success args T ht] at h
        injection h with h
        subst h
        refine ⟨args, T, rfl, ht, rfl, rfl, rfl, ?_, ?_⟩
        · exact ⟨"Dad joke prompt about ", " in " ++ resolvedStyle args ++ " style",
            by simp [String.append_assoc]⟩
        · exact ⟨"Dad joke prompt about " ++ T ++ " in ", " style", rfl⟩
  · unfold get_prompt at h
    simp [hn] at h

/-- The response of the style-less `"cats"` call, written out. -/
def catsClassicResult : GetPromptResult :=
  { description := "Dad joke prompt about cats in classic style",
    messages := [{ role := "user",
                   content := { type := "text",
                                text := "You are an expert comedian skilled with puns and dad jokes. Create a joke about cats that is appropriate for a workplace. Use classic dad joke style with groan-worthy puns and wholesome humor." } }] }

/-- C9, witness: the shape properties hold of the concrete `"cats"` call. -/
theorem C9_response_shape_witness :
    ∃ (args : List (String × String)) (T : String),
      (some [("topic", "cats")] : Option (List (String × String))) = some args ∧
      argLookup args "topic" = some T ∧
      catsClassicResult.messages.length = 1 ∧
      catsClassicResult.messages =
        [{ role := "user",
           content := { type := "text",
                        text := joinWith T (pieces (styleTemplate (resolvedStyle args))) } }] ∧
      catsClassicResult.description = "Dad joke prompt about " ++ T ++ " in " ++ resolvedStyle args ++ " style" ∧
      (∃ u v, catsClassicResult.description = u ++ (T ++ v)) ∧
      (∃ u v, catsClassicResult.description = u ++ resolvedStyle args ++ v) :=
  C9_response_shape "dad_joke" (some [("topic", "cats")]) catsClassicResult rfl

/-- C10: the response depends only on the `"topic"` and `"style"` entries of
the arguments map: two maps that agree on those two lookups get identical
responses from the supported operation, whatever other keys they hold. -/
theorem C10_extra_keys_ignored :
    ∀ (a₁ a₂ : Option (List (String × String))),
      optArgLookup a₁ "topic" = optArgLookup a₂ "topic" →
      optArgLookup a₁ "style" = optArgLookup a₂ "style" →
      get_prompt "dad_joke" a₁ = get_prompt "dad_joke" a₂ := by
  intro a₁ a₂ ht hs
  cases a₁ with
  | none =>
    cases a₂ with
    | none => rfl
    | some args₂ =>
      have h₂ : argLookup args₂ "topic" = none := ht.symm
      rw [resolve_missing h₂]
      rfl
  | some args₁ =>
    cases a₂ with
    | none =>
      have h₁ : argLookup args₁ "topic" = none := ht
      rw [resolve_missing h₁]
      rfl
    | some args₂ =>
      have ht' : argLookup args₁ "topic" = argLookup args₂ "topic" := ht
      have hs' : argLookup args₁ "style" = argLookup args₂ "style" := hs
      cases h₁ : argLookup args₁ "topic" with
      | none =>
        have h₂ : argLookup args₂ "topic" = none := by rw [← ht', h₁]
        rw [resolve_missing h₁, resolve_missing h₂]
      | some T =>
        have h₂ : argLookup args₂ "topic" = some T := by rw [← ht', h₁]
        have hreq : requestedStyle args₁ = requestedStyle args₂ := by
          unfold requestedStyle
          rw [hs']
        have hres : resolvedStyle args₁ = resolvedStyle args₂ := by
          unfold resolvedStyle
          rw [hreq]
        rw [resolve_success args₁ T h₁, resolve_success args₂ T h₂, hres]

/-- C10, witness: two maps with the same topic, no style, and different
extra keys get identical responses. -/
theorem C10_extra_keys_ignored_witness :
    get_prompt "dad_joke" (some [("topic", "cats"), ("extra", "1")]) =
      get_prompt "dad_joke" (some [("other", "2"), ("topic", "cats")]) :=
  C10_extra_keys_ignored (some [("topic", "cats"), ("extra", "1")])
    (some [("other", "2"), ("topic", "cats")]) rfl rfl

end DadJoke
